import Mathlib

/-!
Verification development for the Open Banking Consent Choreographer agents
(monitoring agent, validation agent, audit agent).

The Python sources are shallowly embedded as executable Lean definitions:
dictionaries with `.get(key, default)` access become structures of `Option`
fields read with `getD`; Python floats become exact rationals (`ℚ`); string
processing is done over `List Char` with structural recursion so that all
definitions evaluate inside the kernel.  Wall-clock reads (`time.time()`)
are threaded through explicitly as a `now : ℚ` parameter.  Network and file
I/O (Flask plumbing, `requests.post`, the persisted JSON files) is not
embedded; handlers are modelled as pure state transformers that also return
the list of messages they would have sent.
-/

set_option maxRecDepth 4000

/-- Lowercase every character (embedding of Python `str.lower()` for the
ASCII range used by the sources). -/
def lowerChars (cs : List Char) : List Char := cs.map Char.toLower

/-- Uppercase every character (embedding of Python `str.upper()` for the
ASCII range used by the sources). -/
def upperChars (cs : List Char) : List Char := cs.map Char.toUpper

/-- Drop leading whitespace. -/
def dropLeadingWs (cs : List Char) : List Char := cs.dropWhile Char.isWhitespace

/-- Embedding of Python `str.strip()`: remove whitespace at both ends. -/
def trimChars (cs : List Char) : List Char :=
  ((cs.dropWhile Char.isWhitespace).reverse.dropWhile Char.isWhitespace).reverse

/-- Does `hay` contain `needle` as a contiguous subsequence?  Embedding of
Python's `needle in hay` on strings. -/
def containsSeq (needle : List Char) : List Char → Bool
  | [] => needle.isEmpty
  | c :: rest => needle.isPrefixOf (c :: rest) || containsSeq needle rest

/-- `strContains s sub` embeds Python `sub in s`. -/
def strContains (s sub : String) : Bool := containsSeq sub.data s.data

/-- Split a character list on a separator character.  `splitOnChar '\n'`
embeds Python `str.split('\n')` (which always returns at least one piece). -/
def splitOnChar (sep : Char) : List Char → List (List Char)
  | [] => [[]]
  | c :: rest =>
    if c = sep then [] :: splitOnChar sep rest
    else match splitOnChar sep rest with
      | [] => [[c]]
      | piece :: pieces => (c :: piece) :: pieces

/-- Consume leading decimal digits, returning their values and the rest. -/
def readDigits : List Char → List ℕ × List Char
  | [] => ([], [])
  | c :: rest =>
    if c.isDigit then
      let (ds, r) := readDigits rest
      ((c.toNat - 48) :: ds, r)
    else ([], c :: rest)

/-- Value of a digit sequence read in base 10. -/
def digitsVal (ds : List ℕ) : ℕ := ds.foldl (fun a d => a * 10 + d) 0

/-- Embedding of Python `float(...)` on the decimal-literal fragment the
sources can produce: optional sign, digits with an optional fractional part,
optional exponent.  Returns `none` exactly where Python raises `ValueError`.
Non-finite spellings (`inf`, `nan`) and digit underscores are not modelled;
the numeric domain of the embedding is exact rationals. -/
def pyFloatChars (cs : List Char) : Option ℚ :=
  let (sgn, cs1) : ℚ × List Char :=
    match cs with
    | '-' :: rest => (-1, rest)
    | '+' :: rest => (1, rest)
    | _ => (1, cs)
  let (ip, cs2) := readDigits cs1
  let (fp, cs3) :=
    match cs2 with
    | '.' :: rest => readDigits rest
    | _ => ([], cs2)
  if ip.isEmpty && fp.isEmpty then none
  else
    let base : ℚ := (digitsVal ip : ℚ) + (digitsVal fp : ℚ) / (10 : ℚ) ^ fp.length
    match cs3 with
    | [] => some (sgn * base)
    | e :: rest =>
      if e = 'e' || e = 'E' then
        let (esgn, rest1) : ℤ × List Char :=
          match rest with
          | '-' :: r => (-1, r)
          | '+' :: r => (1, r)
          | _ => (1, rest)
        let (eds, rest2) := readDigits rest1
        if eds.isEmpty || !rest2.isEmpty then none
        else some (sgn * base * (10 : ℚ) ^ (esgn * (digitsVal eds : ℤ)))
      else none

/-- Embedding of Python `float(s)` on a string (Python strips surrounding
whitespace before parsing). -/
def pyFloat (s : String) : Option ℚ := pyFloatChars (trimChars s.data)

/-- Embedding of Python's builtin `min(a, b)`: returns `b` when `b < a`,
otherwise the first argument. -/
def pyMin (a b : ℚ) : ℚ := if b < a then b else a

/-- Embedding of Python's builtin `max(a, b)`: returns `b` when `a < b`,
otherwise the first argument. -/
def pyMax (a b : ℚ) : ℚ := if a < b then b else a

/-- A JSON scalar as it can appear in the `amount` field of a polled
transaction record: a number, a string, or `null`. -/
inductive JVal where
  | num (q : ℚ)
  | str (s : String)
  | null
deriving DecidableEq

/-- Python `float(v)` applied to a JSON scalar: numbers pass through,
strings are parsed (`ValueError` on failure), `None` raises `TypeError`.
`none` is returned exactly where Python raises. -/
def pyFloatOfJVal : JVal → Option ℚ
  | .num q => some q
  | .str s => pyFloat s
  | .null => none

/-- The consent-trigger payload as consumed by the validation agent
(`trigger_data` dict).  Each field is `Option` because the Python code reads
every key with `.get(key, default)`.  `trigger_id`, `data_scope` and
`timestamp` are carried by real payloads but never read by the embedded
logic, so they are omitted here; `amount` is modelled as an (optional)
rational since every code path that reads it compares it numerically. -/
structure TriggerData where
  type : Option String
  amount : Option ℚ
  purpose : Option String
  third_party_provider : Option String
  user_id : Option String
deriving DecidableEq

/-- A `trigger_data` dict with no keys (Python `{}`), as substituted by
`message.get('payload', {})`. -/
def emptyTrigger : TriggerData :=
  { type := none, amount := none, purpose := none,
    third_party_provider := none, user_id := none }

/-- The decision engine's verdict (`ValidationResult` of the spec): the dict
returned by `_mock_validation` / `_parse_ai_response`. -/
structure ValidationResult where
  decision : String
  confidence : ℚ
  reasoning : String
  risk_level : String
  valid : Bool
  ai_processed : Bool
deriving DecidableEq

namespace ValidationAgent

/-- `ValidationAgent._mock_validation` (validation_agent.py:314-372): the
deterministic rule-based strategy.  Sequential `risk_score +=` / `reasons
.append` updates are rendered as paired `let` steps in the same order. -/
def mockValidation (t : TriggerData) : ValidationResult :=
  let amount := t.amount.getD 0
  let trigger_type := t.type.getD "unknown"
  let purpose := t.purpose.getD "unknown"
  let provider := t.third_party_provider.getD "unknown"
  -- High-value transaction check (>€5000 special scrutiny per PSD3)
  let s1 : ℕ := if 5000 < amount then 3 else 0
  let r1 : List String :=
    if 5000 < amount then ["High-value transaction requires enhanced scrutiny"] else []
  -- International transfer check (`purpose.lower()`)
  let pl := lowerChars purpose.data
  let intl := containsSeq "international".data pl || containsSeq "cross-border".data pl
  let s2 := s1 + (if intl then 2 else 0)
  let r2 := r1 ++ (if intl then ["International transfer requires additional verification"] else [])
  -- Third-party data sharing check (`if provider and provider != 'bank'`)
  let tp := provider ≠ "" ∧ provider ≠ "bank"
  let s3 := s2 + (if tp then 1 else 0)
  let r3 := r2 ++ (if tp then ["Third-party data sharing must be explicitly consented to"] else [])
  -- Account activity review check
  let ar := trigger_type = "account_review"
  let risk_score := s3 + (if ar then 1 else 0)
  let reasons := r3 ++ (if ar then ["Account activity review requires user confirmation"] else [])
  if 4 ≤ risk_score then
    { decision := "REJECT", confidence := 0.85,
      reasoning := String.intercalate "; " reasons ++ ". Multiple PSD3 compliance concerns identified.",
      risk_level := "HIGH", valid := false, ai_processed := false }
  else if 2 ≤ risk_score then
    { decision := "APPROVE", confidence := 0.75,
      reasoning := String.intercalate "; " reasons ++ ". Approved with conditions per PSD3 requirements.",
      risk_level := "MEDIUM", valid := true, ai_processed := false }
  else
    { decision := "APPROVE", confidence := 0.95,
      reasoning := "Low-risk transaction compliant with PSD3 requirements.",
      risk_level := "LOW", valid := true, ai_processed := false }

/-- Parser state of `_parse_ai_response`'s line loop: the four local
variables `decision`, `confidence`, `reasoning`, `risk_level`. -/
structure ParseAcc where
  decision : String
  confidence : ℚ
  reasoning : String
  risk_level : String
deriving DecidableEq

/-- One iteration of the `for line in lines` loop of
`ValidationAgent._parse_ai_response` (validation_agent.py:286-299). -/
def parseStep (acc : ParseAcc) (lineCs : List Char) : ParseAcc :=
  let line := trimChars lineCs
  if "DECISION:".data.isPrefixOf line then
    -- decision = line.split(':', 1)[1].strip().upper()
    { acc with decision := String.mk (upperChars (trimChars (line.drop 9))) }
  else if "CONFIDENCE:".data.isPrefixOf line then
    match pyFloatChars (trimChars (line.drop 11)) with
    | some v => { acc with confidence := pyMax 0 (pyMin 1 v) }  -- clamp to 0-1
    | none => { acc with confidence := 0.5 }                    -- ValueError
  else if "REASONING:".data.isPrefixOf line then
    { acc with reasoning := String.mk (trimChars (line.drop 10)) }
  else if "RISK_LEVEL:".data.isPrefixOf line then
    { acc with risk_level := String.mk (upperChars (trimChars (line.drop 11))) }
  else acc

/-- `ValidationAgent._parse_ai_response` (validation_agent.py:277-312).  The
outer `try/except` cannot fire: every operation in the body is total (the
only possibly-failing call, `float`, is guarded by its own inner handler),
so the `_mock_validation` fallback of the `except` arm is dead code. -/
def parseAiResponse (aiResponse : String) (_trigger : TriggerData) : ValidationResult :=
  let lines := splitOnChar '\n' aiResponse.data
  let r := lines.foldl parseStep
    { decision := "REJECT", confidence := 0.5, reasoning := aiResponse, risk_level := "MEDIUM" }
  { decision := r.decision, confidence := r.confidence, reasoning := r.reasoning,
    risk_level := r.risk_level, valid := r.decision == "APPROVE", ai_processed := true }

/-- `ValidationAgent.perform_ai_validation` (validation_agent.py:205-232).
`none` covers every path that ends in the deterministic fallback: the AI
client not being configured, and the `generate_content` call raising or
timing out.  `some text` is a delegated-reasoning response; the code strips
it (`response.text.strip()`) before parsing. -/
def performAiValidation (t : TriggerData) : Option String → ValidationResult
  | none => mockValidation t
  | some text => parseAiResponse (String.mk (trimChars text.data)) t

end ValidationAgent

/-- Embedding of Python's builtin `abs` on a number. -/
def pyAbs (q : ℚ) : ℚ := if q < 0 then -q else q

namespace MonitoringAgent

/-- One polled activity record (a transaction dict as returned by the
transaction-history service, with `account_id` injected by `poll_transactions`).
Every key is read with `.get(key, default)`, hence the `Option` fields.
`amount` is kept as a JSON scalar because the code applies `float(...)` to it
and must tolerate strings and `null`. -/
structure TxRecord where
  amount : Option JVal
  account_id : Option String
  id : Option String
  timestamp : Option ℚ
  from_routing_num : Option String
  to_routing_num : Option String
deriving DecidableEq

/-- A consent trigger emitted by the monitoring agent.  The per-record
triggers carry `type`, `transaction_id`, `amount`, `user_id`, `timestamp`;
the periodic-review trigger carries `type = 'account_activity_review'`,
`user_id`, `transaction_count`, `timestamp`.  The human-readable `reason`
string of each trigger dict is purely descriptive and is not embedded. -/
inductive MTrigger where
  | perRecord (type : String) (transaction_id : String) (amount : ℚ)
      (user_id : String) (timestamp : ℚ)
  | accountReview (user_id : String) (transaction_count : ℕ) (timestamp : ℚ)
deriving DecidableEq

/-- The `type` field of an emitted trigger. -/
def mTriggerType : MTrigger → String
  | .perRecord ty _ _ _ _ => ty
  | .accountReview _ _ _ => "account_activity_review"

/-- Python `float(transaction.get('amount', 0))`: a missing key defaults to
the number `0`; a present value is converted, raising (`none`) on strings
that do not parse and on `null`. -/
def amountOfRecord (v : Option JVal) : Option ℚ :=
  match v with
  | none => some 0
  | some jv => pyFloatOfJVal jv

/-- `MonitoringAgent._analyze_transaction_for_consent`
(monitoring_agent.py:263-309).  The `except (ValueError, TypeError)` handler
around the body catches exactly the failures of `float(...)` on the amount,
logging and returning `None`; that is the `none` branch of the parse. -/
def analyzeTransaction (now : ℚ) (tx : TxRecord) : Option MTrigger :=
  match amountOfRecord tx.amount with
  | none => none  -- ValueError/TypeError: log and skip, no trigger
  | some a =>
    let amount := pyAbs a
    let account_id := tx.account_id.getD "unknown"
    let timestamp := tx.timestamp.getD now
    -- 1. High-value transactions (> €5000 or equivalent)
    if 5000 < amount then
      some (.perRecord "high_value_transaction" (tx.id.getD "unknown") amount account_id timestamp)
    else
      -- 2. International transfers (routing numbers present and unequal)
      let from_routing := tx.from_routing_num.getD ""
      let to_routing := tx.to_routing_num.getD ""
      if from_routing ≠ to_routing ∧ from_routing ≠ "" ∧ to_routing ≠ "" then
        some (.perRecord "international_transfer" (tx.id.getD "unknown") amount account_id timestamp)
      -- 3. Third-party data sharing indicators (large amounts)
      else if 1000 < amount then
        some (.perRecord "third_party_data_sharing" (tx.id.getD "unknown") amount account_id timestamp)
      else none

/-- `tx.get('account_id', 'unknown')`. -/
def acctOf (tx : TxRecord) : String := tx.account_id.getD "unknown"

/-- One step of building the `account_activity` dict
(monitoring_agent.py:240-245).  A Python dict keyed by strings is modelled
as an association list in key-insertion order; appending to an existing
key's list updates the (unique) entry in place, a new key goes to the end. -/
def stepGrp : List (String × List TxRecord) → TxRecord → List (String × List TxRecord)
  | [], tx => [(acctOf tx, [tx])]
  | p :: rest, tx =>
    if p.1 = acctOf tx then (p.1, p.2 ++ [tx]) :: rest
    else p :: stepGrp rest tx

/-- Dict lookup returning `[]` for a missing key (used only to state
properties of the grouping; the code itself iterates `items()`). -/
def lookupGrp : List (String × List TxRecord) → String → List TxRecord
  | [], _ => []
  | p :: rest, a => if p.1 = a then p.2 else lookupGrp rest a

/-- The `for account, txs in account_activity.items()` loop
(monitoring_agent.py:248-258): one `account_activity_review` trigger per
account with three or more grouped records, in dict (insertion) order. -/
def mkReviews (now : ℚ) (groups : List (String × List TxRecord)) : List MTrigger :=
  groups.filterMap (fun p => if 3 ≤ p.2.length then some (.accountReview p.1 p.2.length now) else none)

/-- The new-transactions slice of a cycle (monitoring_agent.py:225-229):
`transactions[-(current - last):]` when the count grew, else the empty
list. -/
def newTransactions (lastCount : ℕ) (txs : List TxRecord) : List TxRecord :=
  if lastCount < txs.length then txs.drop lastCount else []

/-- `MonitoringAgent.detect_consent_triggers` (monitoring_agent.py:214-261).
Returns the emitted triggers together with the updated
`last_transaction_count`.  The `users` roster is an argument of the Python
method but is never read. -/
def detectConsentTriggers (now : ℚ) (lastCount : ℕ) (txs : List TxRecord)
    (_users : List JVal) : List MTrigger × ℕ :=
  if txs.isEmpty then ([], lastCount)
  else
    let newTxs := newTransactions lastCount txs
    let lastCount' := if lastCount < txs.length then txs.length else lastCount
    -- Process all transactions (including previously seen ones)
    let triggers := txs.filterMap (analyzeTransaction now)
    -- If no triggers and new transactions exist, check review patterns
    if triggers.isEmpty && !newTxs.isEmpty then
      (triggers ++ mkReviews now (newTxs.foldl stepGrp []), lastCount')
    else (triggers, lastCount')

/-- `True` exactly on `account_activity_review` triggers for account `a`. -/
def isReviewFor (a : String) : MTrigger → Bool
  | .accountReview u _ _ => u == a
  | .perRecord _ _ _ _ _ => false

end MonitoringAgent

/-- Python `str(x)` on an optional string: a missing value prints as
`"None"` inside an f-string. -/
def pyStrOfOpt : Option String → String
  | some s => s
  | none => "None"

/-- Exact rendering of a rational, used by the simplified numeric-format
helpers below. -/
def ratStr (q : ℚ) : String :=
  if q.den = 1 then toString q.num else toString q.num ++ "/" ++ toString q.den

/-- Simplified stand-in for Python `f"{confidence:.1%}"`: the percentage is
rendered exactly instead of rounded to one decimal.  No embedded theorem
inspects note text. -/
def fmtPct (q : ℚ) : String := ratStr (q * 100) ++ "%"

/-- Simplified stand-in for Python `f"€{amount:,}"` (thousands separators
are not reproduced). -/
def fmtAmt (q : ℚ) : String := ratStr q

/-- `cs.replace('_', ' ')` specialised to single characters. -/
def replaceChar (a b : Char) (cs : List Char) : List Char :=
  cs.map (fun c => if c = a then b else c)

/-- Embedding of Python `str.title()`: the first letter of each alphabetic
run is uppercased, the rest lowercased. -/
def titleChars : List Char → Bool → List Char
  | [], _ => []
  | c :: rest, prevAlpha =>
    (if c.isAlpha then (if prevAlpha then c.toLower else c.toUpper) else c)
      :: titleChars rest c.isAlpha

/-- `s.replace('_', ' ').title()` from the audit agent's note formatting. -/
def titleCase (s : String) : String :=
  String.mk (titleChars (replaceChar '_' ' ' s.data) false)

namespace AuditAgent

/-- The `audit_log_request` payload received by the audit agent
(`audit_data` dict): every key is read with `.get`, and a missing
`validation_result` / `trigger_data` behaves like an empty dict. -/
structure AuditData where
  timestamp : Option ℚ
  validation_result : Option ValidationResult
  trigger_data : Option TriggerData
  source_agent : Option String
deriving DecidableEq

/-- An `audit_data` payload with no keys (Python `{}`). -/
def emptyAuditData : AuditData :=
  { timestamp := none, validation_result := none, trigger_data := none, source_agent := none }

/-- One durable audit record as appended to `self.audit_logs`
(audit_agent.py:151-157). -/
structure AuditEntry where
  timestamp : ℚ
  validation_result : Option ValidationResult
  trigger_data : Option TriggerData
  source_agent : String
  regulatory_notes : List String
deriving DecidableEq

/-- `validation_result.get('decision', 'UNKNOWN')` where a missing dict acts
as `{}`. -/
def vrDecision : Option ValidationResult → String
  | some v => v.decision
  | none => "UNKNOWN"

/-- `validation_result.get('confidence', 0.0)`. -/
def vrConfidence : Option ValidationResult → ℚ
  | some v => v.confidence
  | none => 0

/-- `validation_result.get('reasoning', '')`. -/
def vrReasoning : Option ValidationResult → String
  | some v => v.reasoning
  | none => ""

/-- `validation_result.get('valid', False)`. -/
def vrValid : Option ValidationResult → Bool
  | some v => v.valid
  | none => false

/-- `AuditAgent._format_ai_reasoning_as_notes` (audit_agent.py:170-222).
Numeric formatting goes through the simplified helpers `fmtPct`/`fmtAmt`;
everything else (note selection, order, and conditions) follows the source. -/
def formatAiReasoningAsNotes (ai_reasoning : String) (vres : Option ValidationResult)
    (tdata : Option TriggerData) : List String :=
  let td := tdata.getD emptyTrigger
  let consent_type := td.type.getD "unknown"
  let amount := td.amount.getD 0
  let purpose := td.purpose.getD "unspecified"
  let provider := td.third_party_provider.getD "unknown"
  let user_id := td.user_id.getD "unknown"
  let decision := vrDecision vres
  let confidence := vrConfidence vres
  let status_icon := if decision = "APPROVE" then "✅" else "❌"
  let reasoning_lower := lowerChars ai_reasoning.data
  [ status_icon ++ " AI Assessment: " ++ titleCase consent_type ++ " Request",
    "• Confidence: " ++ fmtPct confidence ++ " | Amount: €" ++ fmtAmt amount ++ " | Purpose: " ++ purpose,
    "• Provider: " ++ provider ++ " | User: " ++ user_id ]
  ++ (if decision = "APPROVE" then
        ["• PSD3 Compliance: ✅ Request meets regulatory requirements"]
        ++ (if 5000 < amount then
             ["• High-Value Review: ✅ €" ++ fmtAmt amount ++ " transaction approved under enhanced scrutiny"]
           else [])
        ++ (if strContains consent_type "third_party" ∨ provider ≠ "bank" then
             ["• Third-Party Access: ✅ Explicit consent granted for " ++ provider]
           else [])
        ++ ["• Data Processing: ✅ Purpose limitation and minimization applied"]
      else
        ["• PSD3 Compliance: ❌ Request does not meet all regulatory requirements"]
        ++ (if 5000 < amount then
             ["• High-Value Review: ❌ €" ++ fmtAmt amount ++ " requires additional compliance measures"]
           else [])
        ++ (if strContains consent_type "third_party" ∨ provider ≠ "bank" then
             ["• Third-Party Access: ❌ Additional verification needed for " ++ provider]
           else [])
        ++ ["• Remediation: Review consent scope and obtain explicit user confirmation"])
  ++ (if containsSeq "purpose".data reasoning_lower then
        ["• Purpose Clarity: AI validated processing purpose specification"]
      else [])
  ++ (if containsSeq "withdraw".data reasoning_lower || containsSeq "revoke".data reasoning_lower then
        ["• Withdrawal Rights: AI confirmed revocation mechanisms available"]
      else [])
  ++ (if 100 < ai_reasoning.length then
        let sentences := splitOnChar '.' ai_reasoning.data
        let key_insights := ((sentences.take 2).map trimChars).filter (fun s => !s.isEmpty)
        if !key_insights.isEmpty then
          ["• AI Analysis: " ++ String.intercalate ". " (key_insights.map String.mk) ++ "."]
        else []
      else [])

/-- `AuditAgent._generate_regulatory_notes` (audit_agent.py:224-265).  The
rejected branch reads `validation_result.get("reason", "Validation failed")`;
no producer ever writes a `reason` key (the engine writes `reasoning`), so
the default is taken unconditionally. -/
def generateRegulatoryNotes (vres : Option ValidationResult)
    (tdata : Option TriggerData) : List String :=
  let trigger_type := (tdata.getD emptyTrigger).type.getD "unknown"
  let is_valid := vrValid vres
  let confidence := vrConfidence vres
  if is_valid then
    [ "PSD3 Article 64 compliance confirmed",
      "Explicit consent obtained for data processing",
      "Data minimization principles applied",
      "Right to withdraw consent maintained",
      "Transparent privacy notice provided",
      "AI validation confidence: " ++ fmtPct confidence ]
    ++ (if trigger_type = "high_value_transaction" then
          ["High-value transaction consent validated"]
        else if trigger_type = "international_transfer" then
          ["Cross-border transfer consent confirmed"]
        else if trigger_type = "third_party_data_sharing" then
          ["Third-party data sharing consent verified"]
        else if trigger_type = "account_activity_review" then
          ["Account activity consent review completed"]
        else [])
  else
    [ "REJECTED: Validation failed",
      "PSD3 Article 64: Consent must be specific and informed",
      "Data protection impact assessment recommended",
      "User notified of rejection with reasoning",
      "Alternative narrower consent scope suggested",
      "AI validation confidence: " ++ fmtPct confidence ]
    ++ (if confidence < 0.5 then
          ["CRITICAL: Low confidence validation - manual review required"]
        else if confidence < 0.7 then
          ["WARNING: Moderate confidence - additional verification recommended"]
        else [])

/-- The audit entry built by `AuditAgent.process_audit_log`
(audit_agent.py:139-157) from one incoming payload. -/
def mkAuditEntry (now : ℚ) (d : AuditData) : AuditEntry :=
  let ai_reasoning := vrReasoning d.validation_result
  let regulatory_notes :=
    if ai_reasoning ≠ "" ∧ 50 < ai_reasoning.length then
      formatAiReasoningAsNotes ai_reasoning d.validation_result d.trigger_data
    else generateRegulatoryNotes d.validation_result d.trigger_data
  { timestamp := d.timestamp.getD now,
    validation_result := d.validation_result,
    trigger_data := d.trigger_data,
    source_agent := d.source_agent.getD "Unknown",
    regulatory_notes := regulatory_notes }

/-- `AuditAgent.process_audit_log` (audit_agent.py:137-168) as a transformer
of the in-memory ledger: append the new entry, then keep only the last 100
entries (`self.audit_logs[-100:]`) when the cap is exceeded.  The
write-through file saves are I/O and are not modelled. -/
def processAuditLog (now : ℚ) (logs : List AuditEntry) (d : AuditData) : List AuditEntry :=
  let logs' := logs ++ [mkAuditEntry now d]
  if 100 < logs'.length then logs'.drop (logs'.length - 100) else logs'

end AuditAgent

/-- The dict returned by each agent's `process_a2a_message`.  The
`audit_message_id` correlation field of the validation agent's accepted
response (plumbing for the fire-and-forget send) is not modelled. -/
structure A2AResponse where
  status : String
  reason : Option String
  message_id : Option String
  result : Option ValidationResult
deriving DecidableEq

namespace AuditAgent

/-- An incoming A2A envelope as read by the audit agent (every field via
`.get`, so missing keys are `none`). -/
structure A2AMessage where
  protocol : Option String
  message_id : Option String
  from_agent : Option String
  to_agent : Option String
  message_type : Option String
  payload : Option AuditData
deriving DecidableEq

/-- `AuditAgent.process_a2a_message` (audit_agent.py:96-125), returning the
response dict together with the ledger after any processing.  The
`except` arm is unreachable for the embedded total operations. -/
def processA2aMessage (now : ℚ) (logs : List AuditEntry) (msg : A2AMessage) :
    A2AResponse × List AuditEntry :=
  if msg.protocol ≠ some "A2A/1.0" then
    ({ status := "rejected", reason := some "Unsupported protocol",
       message_id := none, result := none }, logs)
  else if msg.to_agent ≠ some "AuditAgent" then
    ({ status := "rejected", reason := some "Message not for this agent",
       message_id := none, result := none }, logs)
  else if msg.message_type = some "audit_log_request" then
    ({ status := "accepted", reason := none,
       message_id := msg.message_id, result := none },
     processAuditLog now logs (msg.payload.getD emptyAuditData))
  else
    ({ status := "rejected",
       reason := some ("Unknown message type: " ++ pyStrOfOpt msg.message_type),
       message_id := none, result := none }, logs)

end AuditAgent

namespace ValidationAgent

/-- An incoming A2A envelope as read by the validation agent. -/
structure A2AMessage where
  protocol : Option String
  message_id : Option String
  from_agent : Option String
  to_agent : Option String
  message_type : Option String
  payload : Option TriggerData
deriving DecidableEq

/-- The `audit_log_request` payload assembled by
`ValidationAgent.send_to_audit_agent` (validation_agent.py:377-382) for the
fire-and-forget A2A send to the audit agent. -/
structure AuditSend where
  validation_result : ValidationResult
  trigger_data : TriggerData
  source_agent : String
  timestamp : ℚ
deriving DecidableEq

/-- `ValidationAgent.process_a2a_message` (validation_agent.py:170-203),
returning the response dict together with the list of messages sent
downstream (`send_to_audit_agent`).  `aiOutcome` is the delegated-reasoning
outcome threaded into `perform_ai_validation`. -/
def processA2aMessage (now : ℚ) (msg : A2AMessage) (aiOutcome : Option String) :
    A2AResponse × List AuditSend :=
  if msg.protocol ≠ some "A2A/1.0" then
    ({ status := "rejected", reason := some "Unsupported protocol",
       message_id := none, result := none }, [])
  else if msg.to_agent ≠ some "ValidationAgent" then
    ({ status := "rejected", reason := some "Message not for this agent",
       message_id := none, result := none }, [])
  else if msg.message_type = some "consent_validation_request" then
    let payload := msg.payload.getD emptyTrigger
    let validation_result := performAiValidation payload aiOutcome
    ({ status := "accepted", reason := none,
       message_id := msg.message_id, result := some validation_result },
     [{ validation_result := validation_result, trigger_data := payload,
        source_agent := "ValidationAgent", timestamp := now }])
  else
    ({ status := "rejected",
       reason := some ("Unknown message type: " ++ pyStrOfOpt msg.message_type),
       message_id := none, result := none }, [])

end ValidationAgent

/-- Does the response text contain a line that (after stripping) starts
with `DECISION:`?  This is the condition the parser's decision default
hinges on. -/
def hasDecisionLine (s : String) : Bool :=
  (splitOnChar '\n' s.data).any (fun l => "DECISION:".data.isPrefixOf (trimChars l))

/-- Transcription of the risk score exactly as claim C1 words it (three
contributions only, with the `third_party_provider` contribution requiring
the field to be present).  Written from the claim, not from the source, to
be compared against `ValidationAgent.mockValidation`. -/
def c1ClaimedScore (t : TriggerData) : ℕ :=
  (if 5000 < t.amount.getD 0 then 3 else 0)
  + (if containsSeq "international".data (lowerChars (t.purpose.getD "unknown").data)
        ∨ containsSeq "cross-border".data (lowerChars (t.purpose.getD "unknown").data)
     then 2 else 0)
  + (match t.third_party_provider with
     | some p => if p ≠ "bank" then 1 else 0
     | none => 0)

/-- The (decision, confidence, risk_level) triple claim C1 predicts from its
score. -/
def c1ClaimedVerdict (t : TriggerData) : String × ℚ × String :=
  if 4 ≤ c1ClaimedScore t then ("REJECT", 0.85, "HIGH")
  else if 2 ≤ c1ClaimedScore t then ("APPROVE", 0.75, "MEDIUM")
  else ("APPROVE", 0.95, "LOW")

/-- The amended risk score: as claim C1, except that (a) an absent
`third_party_provider` defaults to `"unknown"` and therefore still
contributes `+1` (only an empty provider or exactly `"bank"` contributes
nothing), and (b) a trigger whose `type` equals `"account_review"`
contributes a further `+1`. -/
def c1AmendedScore (t : TriggerData) : ℕ :=
  (if 5000 < t.amount.getD 0 then 3 else 0)
  + (if containsSeq "international".data (lowerChars (t.purpose.getD "unknown").data)
        ∨ containsSeq "cross-border".data (lowerChars (t.purpose.getD "unknown").data)
     then 2 else 0)
  + (if (t.third_party_provider.getD "unknown") ≠ ""
        ∧ (t.third_party_provider.getD "unknown") ≠ "bank"
     then 1 else 0)
  + (if t.type.getD "unknown" = "account_review" then 1 else 0)

/-- The (decision, confidence, risk_level) triple predicted from the amended
score, with the same thresholds as claim C1. -/
def c1AmendedVerdict (t : TriggerData) : String × ℚ × String :=
  if 4 ≤ c1AmendedScore t then ("REJECT", 0.85, "HIGH")
  else if 2 ≤ c1AmendedScore t then ("APPROVE", 0.75, "MEDIUM")
  else ("APPROVE", 0.95, "LOW")

/-- Transcription of the per-record trigger policy as amended for claim C7:
first-match-wins in the fixed order, with the thresholds compared against
the absolute value of the parsed amount; a missing amount is treated as `0`
(so the amount rules fail but the routing rule may still fire), while a
non-numeric or null amount produces no trigger at all.  Written from the
amended claim's words, to be compared against
`MonitoringAgent.analyzeTransaction`. -/
def c7AmendedPolicy (tx : MonitoringAgent.TxRecord) : Option String :=
  match MonitoringAgent.amountOfRecord tx.amount with
  | none => none
  | some a =>
    if 5000 < pyAbs a then some "high_value_transaction"
    else if (tx.from_routing_num.getD "") ≠ (tx.to_routing_num.getD "")
            ∧ (tx.from_routing_num.getD "") ≠ "" ∧ (tx.to_routing_num.getD "") ≠ "" then
      some "international_transfer"
    else if 1000 < pyAbs a then some "third_party_data_sharing"
    else none

/-- Concrete trigger refuting claim C1: a high-value trigger with no
`third_party_provider` key at all. -/
def c1Trigger : TriggerData :=
  { type := some "high_value_transaction", amount := some 6000,
    purpose := some "routine payment", third_party_provider := none,
    user_id := some "user_1" }

/-- Concrete trigger for claim C5: a low-risk trigger on which the
deterministic strategy approves. -/
def c5Trigger : TriggerData :=
  { type := some "third_party_data_sharing", amount := some 200,
    purpose := some "budgeting", third_party_provider := some "bank",
    user_id := some "user_5" }

/-- Concrete trigger for claim C6 as emitted by the live pipeline: the
monitoring agent's periodic review uses the type string
`account_activity_review`. -/
def c6PipelineTrigger : TriggerData :=
  { type := some "account_activity_review", amount := some 6000,
    purpose := some "periodic review", third_party_provider := some "bank",
    user_id := some "1234567890" }

/-- The same trigger with the demo generator's spelling `account_review`,
the only string the deterministic strategy's type check matches. -/
def c6DemoTrigger : TriggerData :=
  { type := some "account_review", amount := some 6000,
    purpose := some "periodic review", third_party_provider := some "bank",
    user_id := some "1234567890" }

/-- Concrete activity record refuting claim C7: a negative amount below
every threshold as written, yet over the high-value threshold in absolute
value. -/
def c7NegRecord : MonitoringAgent.TxRecord :=
  { amount := some (.num (-6000)), account_id := some "1234567890",
    id := some "tx1", timestamp := some 100,
    from_routing_num := none, to_routing_num := none }

/-- Concrete activity record for claim C10's witness. -/
def c10NegRecord : MonitoringAgent.TxRecord :=
  { amount := some (.num (-6000)), account_id := some "0987654321",
    id := some "tx9", timestamp := some 7,
    from_routing_num := none, to_routing_num := none }

/-- A small in-bank record on account `acct`: equal routing numbers and an
amount under every threshold, so no per-record rule fires. -/
def c8SmallTx (acct : String) (n : String) : MonitoringAgent.TxRecord :=
  { amount := some (.num 100), account_id := some acct, id := some n,
    timestamp := some 1,
    from_routing_num := some "883745000", to_routing_num := some "883745000" }

/-- A high-value record on another account, used as the previously seen
record of claim C8's counterexample. -/
def c8BigTx : MonitoringAgent.TxRecord :=
  { amount := some (.num 6000), account_id := some "0987654321",
    id := some "tx_old", timestamp := some 0,
    from_routing_num := none, to_routing_num := none }

/-- Counterexample batch for claim C8: one previously seen high-value
record followed by three new small records on one account
(`last_transaction_count = 1`). -/
def c8CexBatch : List MonitoringAgent.TxRecord :=
  [c8BigTx, c8SmallTx "1111111111" "n1", c8SmallTx "1111111111" "n2", c8SmallTx "1111111111" "n3"]

/-- Witness batch for claim C8's amended statement: five previously seen
records and three new records on one account, none of the eight producing a
per-record trigger (`last_transaction_count = 5`). -/
def c8WitnessBatch : List MonitoringAgent.TxRecord :=
  [c8SmallTx "1234567890" "o1", c8SmallTx "0987654321" "o2", c8SmallTx "1234567890" "o3",
   c8SmallTx "0987654321" "o4", c8SmallTx "1234567890" "o5",
   c8SmallTx "1111111111" "w1", c8SmallTx "1111111111" "w2", c8SmallTx "1111111111" "w3"]

/-- A misrouted but protocol-correct envelope arriving at the audit agent. -/
def c9AuditMsg : AuditAgent.A2AMessage :=
  { protocol := some "A2A/1.0", message_id := some "m1",
    from_agent := some "ValidationAgent", to_agent := some "ValidationAgent",
    message_type := some "audit_log_request", payload := none }

/-- A misrouted but protocol-correct envelope arriving at the validation
agent. -/
def c9ValMsg : ValidationAgent.A2AMessage :=
  { protocol := some "A2A/1.0", message_id := some "m2",
    from_agent := some "MonitoringAgent", to_agent := some "AuditAgent",
    message_type := some "consent_validation_request", payload := none }

/-- A pre-existing ledger entry, to exhibit that rejection leaves any ledger
state untouched. -/
def c9LedgerEntry : AuditAgent.AuditEntry :=
  { timestamp := 1, validation_result := none, trigger_data := none,
    source_agent := "ValidationAgent", regulatory_notes := ["note"] }

/-- 101 distinct audit payloads for claim C4's witness. -/
def c4Batch : List AuditAgent.AuditData :=
  (List.range 101).map (fun (i : ℕ) =>
    { timestamp := some ((i : ℕ) : ℚ), validation_result := none,
      trigger_data := none, source_agent := some "ValidationAgent" })

/-! ## Helper lemmas -/

/-- The clamp `max(0.0, min(1.0, v))` always lands in `[0, 1]`. -/
theorem pyClamp_bounds (v : ℚ) : 0 ≤ pyMax 0 (pyMin 1 v) ∧ pyMax 0 (pyMin 1 v) ≤ 1 := by
  unfold pyMax pyMin
  split_ifs <;> constructor <;> linarith

/-- One parser step keeps the running confidence inside `[0, 1]`. -/
theorem parseStep_confidence_bounds (acc : ValidationAgent.ParseAcc) (line : List Char)
    (h0 : 0 ≤ acc.confidence) (h1 : acc.confidence ≤ 1) :
    0 ≤ (ValidationAgent.parseStep acc line).confidence
      ∧ (ValidationAgent.parseStep acc line).confidence ≤ 1 := by
  unfold ValidationAgent.parseStep
  dsimp only
  split_ifs
  · exact ⟨h0, h1⟩
  · cases hp : pyFloatChars (trimChars ((trimChars line).drop 11)) with
    | none => simp [hp]; norm_num
    | some v => simp [hp]; exact pyClamp_bounds v
  · exact ⟨h0, h1⟩
  · exact ⟨h0, h1⟩
  · exact ⟨h0, h1⟩

/-- The whole parsing loop keeps the confidence inside `[0, 1]`. -/
theorem foldlParse_confidence_bounds :
    ∀ (lines : List (List Char)) (acc : ValidationAgent.ParseAcc),
      0 ≤ acc.confidence → acc.confidence ≤ 1 →
      0 ≤ (lines.foldl ValidationAgent.parseStep acc).confidence
        ∧ (lines.foldl ValidationAgent.parseStep acc).confidence ≤ 1 := by
  intro lines
  induction lines with
  | nil => intro acc h0 h1; exact ⟨h0, h1⟩
  | cons l rest ih =>
    intro acc h0 h1
    have h := parseStep_confidence_bounds acc l h0 h1
    exact ih _ h.1 h.2

/-- A parser step that does not see a `DECISION:` line keeps the decision. -/
theorem parseStep_decision_unchanged (acc : ValidationAgent.ParseAcc) (line : List Char)
    (h : "DECISION:".data.isPrefixOf (trimChars line) = false) :
    (ValidationAgent.parseStep acc line).decision = acc.decision := by
  unfold ValidationAgent.parseStep
  dsimp only
  simp only [h, Bool.false_eq_true]
  split_ifs with h1 h2 h3 h4
  · exact h1.elim
  · cases hp : pyFloatChars (trimChars (List.drop 11 (trimChars line))) <;> simp [hp]
  · rfl
  · rfl
  · rfl

/-- The parsing loop leaves the decision at its default when no line starts
with `DECISION:`. -/
theorem foldlParse_decision_unchanged :
    ∀ (lines : List (List Char)) (acc : ValidationAgent.ParseAcc),
      (∀ l ∈ lines, "DECISION:".data.isPrefixOf (trimChars l) = false) →
      (lines.foldl ValidationAgent.parseStep acc).decision = acc.decision := by
  intro lines
  induction lines with
  | nil => intro acc _; rfl
  | cons l rest ih =>
    intro acc h
    rw [List.foldl_cons, ih _ (fun x hx => h x (List.mem_cons_of_mem l hx)),
      parseStep_decision_unchanged acc l (h l (List.mem_cons_self l rest))]

/-! ## Claim theorems -/

/-- C1 (counterexample): at a high-value trigger carrying no
`third_party_provider` key, the deterministic strategy does not produce the
(decision, confidence, risk_level) triple predicted by claim C1's score
formula: the code scores the absent provider's `'unknown'` default as a
third-party and rejects, where the claim predicts APPROVE at 0.75. -/
theorem c1_counterexample :
    ((ValidationAgent.mockValidation c1Trigger).decision,
     (ValidationAgent.mockValidation c1Trigger).confidence,
     (ValidationAgent.mockValidation c1Trigger).risk_level) ≠ c1ClaimedVerdict c1Trigger := by
  with_unfolding_all decide

/-- C1 (amended): for every trigger, the deterministic strategy's
(decision, confidence, risk_level) triple is exactly the one obtained from
the amended risk score — the claim's three contributions, plus `+1` when the
provider field (defaulting to `"unknown"` when absent) is non-empty and
differs from `"bank"`, plus `+1` when the type equals `"account_review"` —
under the claim's thresholds, and `ai_processed` is always `false`. -/
theorem c1_amended_score_verdict (t : TriggerData) :
    ((ValidationAgent.mockValidation t).decision,
     (ValidationAgent.mockValidation t).confidence,
     (ValidationAgent.mockValidation t).risk_level) = c1AmendedVerdict t
    ∧ (ValidationAgent.mockValidation t).ai_processed = false := by
  unfold ValidationAgent.mockValidation c1AmendedVerdict c1AmendedScore
  dsimp only
  split_ifs <;> simp_all

/-- C2: for every `ValidationResult` produced by the deterministic strategy,
by the delegated-reasoning parser on any response text, and by the combined
decision-engine entry point, `valid` is `true` exactly when `decision`
equals `"APPROVE"`. -/
theorem c2_valid_iff_approve :
    (∀ t : TriggerData, (ValidationAgent.mockValidation t).valid
        = ((ValidationAgent.mockValidation t).decision == "APPROVE"))
    ∧ (∀ (s : String) (t : TriggerData), (ValidationAgent.parseAiResponse s t).valid
        = ((ValidationAgent.parseAiResponse s t).decision == "APPROVE"))
    ∧ (∀ (t : TriggerData) (o : Option String), (ValidationAgent.performAiValidation t o).valid
        = ((ValidationAgent.performAiValidation t o).decision == "APPROVE")) := by
  have hmock : ∀ t : TriggerData, (ValidationAgent.mockValidation t).valid
      = ((ValidationAgent.mockValidation t).decision == "APPROVE") := by
    intro t
    unfold ValidationAgent.mockValidation
    dsimp only
    split_ifs <;> rfl
  have hparse : ∀ (s : String) (t : TriggerData), (ValidationAgent.parseAiResponse s t).valid
      = ((ValidationAgent.parseAiResponse s t).decision == "APPROVE") := by
    intro s t; rfl
  refine ⟨hmock, hparse, ?_⟩
  intro t o
  cases o with
  | none => exact hmock t
  | some s => exact hparse (String.mk (trimChars s.data)) t

/-- C3: the decision engine's confidence always lies in `[0, 1]`, whichever
strategy ran and whatever the delegated-reasoning response text was; in
particular a `CONFIDENCE: 5.0` line clamps to `1`, while a `CONFIDENCE: abc`
line and a response with no `CONFIDENCE:` line both default to `0.5`. -/
theorem c3_confidence_bounds :
    (∀ (t : TriggerData) (o : Option String),
       0 ≤ (ValidationAgent.performAiValidation t o).confidence
       ∧ (ValidationAgent.performAiValidation t o).confidence ≤ 1)
    ∧ (ValidationAgent.parseAiResponse "DECISION: APPROVE\nCONFIDENCE: 5.0" emptyTrigger).confidence = 1
    ∧ (ValidationAgent.parseAiResponse "CONFIDENCE: abc" emptyTrigger).confidence = 0.5
    ∧ (ValidationAgent.parseAiResponse "REASONING: no confidence given" emptyTrigger).confidence = 0.5 := by
  have hmock : ∀ t : TriggerData,
      0 ≤ (ValidationAgent.mockValidation t).confidence
      ∧ (ValidationAgent.mockValidation t).confidence ≤ 1 := by
    intro t
    unfold ValidationAgent.mockValidation
    dsimp only
    split_ifs <;> constructor <;> norm_num
  have hparse : ∀ (s : String) (t : TriggerData),
      0 ≤ (ValidationAgent.parseAiResponse s t).confidence
      ∧ (ValidationAgent.parseAiResponse s t).confidence ≤ 1 := by
    intro s t
    unfold ValidationAgent.parseAiResponse
    dsimp only
    exact foldlParse_confidence_bounds _ _ (by norm_num) (by norm_num)
  refine ⟨?_, ?_, ?_, ?_⟩
  · intro t o
    cases o with
    | none => exact hmock t
    | some s => exact hparse (String.mk (trimChars s.data)) t
  · with_unfolding_all decide
  · with_unfolding_all decide
  · with_unfolding_all decide

/-- C5 (counterexample): a delegated-reasoning response with no `DECISION:`
line parses without failure, but the result is not the deterministic
strategy's result for the same trigger — the parser falls back to the
defaults (REJECT at confidence 0.5), while the deterministic strategy
approves this low-risk trigger. -/
theorem c5_counterexample :
    hasDecisionLine "hello" = false
    ∧ ValidationAgent.performAiValidation c5Trigger (some "hello")
        ≠ ValidationAgent.mockValidation c5Trigger := by
  with_unfolding_all decide

/-- C5 (amended): a delegated-reasoning call that throws or times out yields
exactly the deterministic strategy's result; a response text with no line
starting with `DECISION:` still yields a complete result without unhandled
failure, with the defaults decision `REJECT`, `valid = false`, and
`ai_processed = true` — which need not equal the deterministic result. -/
theorem c5_amended_fallback :
    (∀ t : TriggerData,
       ValidationAgent.performAiValidation t none = ValidationAgent.mockValidation t)
    ∧ (∀ (t : TriggerData) (s : String), hasDecisionLine s = false →
       (ValidationAgent.parseAiResponse s t).decision = "REJECT"
       ∧ (ValidationAgent.parseAiResponse s t).valid = false
       ∧ (ValidationAgent.parseAiResponse s t).ai_processed = true) := by
  constructor
  · intro t; rfl
  · intro t s h
    have hall : ∀ l ∈ splitOnChar '\n' s.data,
        "DECISION:".data.isPrefixOf (trimChars l) = false := by
      intro l hl
      have h' := List.any_eq_false.mp h l hl
      simp only [Bool.not_eq_true] at h'
      exact h'
    have hdec : (ValidationAgent.parseAiResponse s t).decision = "REJECT" := by
      unfold ValidationAgent.parseAiResponse
      dsimp only
      exact foldlParse_decision_unchanged _ _ hall
    refine ⟨hdec, ?_, rfl⟩
    have hval : (ValidationAgent.parseAiResponse s t).valid
        = ((ValidationAgent.parseAiResponse s t).decision == "APPROVE") := rfl
    rw [hval, hdec]
    rfl

/-- C5 (witness for the amended statement): at the concrete low-risk trigger,
the thrown-call path returns the deterministic result, and the concrete
no-`DECISION:` text `"hello world"` parses to the default REJECT decision. -/
theorem c5_amended_fallback_witness :
    ValidationAgent.performAiValidation c5Trigger none = ValidationAgent.mockValidation c5Trigger
    ∧ hasDecisionLine "hello world" = false
    ∧ (ValidationAgent.parseAiResponse "hello world" c5Trigger).decision = "REJECT" :=
  ⟨c5_amended_fallback.1 c5Trigger, by with_unfolding_all decide,
   (c5_amended_fallback.2 c5Trigger "hello world" (by with_unfolding_all decide)).1⟩

/-- C6: the deterministic strategy's type bonus tests the demo spelling
`account_review`, not the pipeline's `account_activity_review`.  At the
failing input — an `account_activity_review` trigger with amount 6000 and
provider `bank` — the score stays at 3 and the code APPROVEs with
confidence 0.75, while the claim's `+1` for the type would force score 4 and
a REJECT; renaming the type to `account_review` indeed flips the outcome to
REJECT at 0.85. -/
theorem c6_code_divergence :
    (ValidationAgent.mockValidation c6PipelineTrigger).decision = "APPROVE"
    ∧ (ValidationAgent.mockValidation c6PipelineTrigger).confidence = 0.75
    ∧ (ValidationAgent.mockValidation c6DemoTrigger).decision = "REJECT"
    ∧ (ValidationAgent.mockValidation c6DemoTrigger).confidence = 0.85 := by
  with_unfolding_all decide

/-- C9: a protocol-correct envelope addressed to a different agent is
rejected by both receive handlers with reason `"Message not for this
agent"`, the audit ledger is returned unchanged, and no downstream message
is emitted. -/
theorem c9_reject_no_side_effects :
    (∀ (now : ℚ) (logs : List AuditAgent.AuditEntry) (msg : AuditAgent.A2AMessage),
       msg.protocol = some "A2A/1.0" → msg.to_agent ≠ some "AuditAgent" →
       AuditAgent.processA2aMessage now logs msg
         = ({ status := "rejected", reason := some "Message not for this agent",
              message_id := none, result := none }, logs))
    ∧ (∀ (now : ℚ) (msg : ValidationAgent.A2AMessage) (o : Option String),
       msg.protocol = some "A2A/1.0" → msg.to_agent ≠ some "ValidationAgent" →
       ValidationAgent.processA2aMessage now msg o
         = ({ status := "rejected", reason := some "Message not for this agent",
              message_id := none, result := none }, [])) := by
  constructor
  · intro now logs msg h1 h2
    unfold AuditAgent.processA2aMessage
    simp [h1, h2]
  · intro now msg o h1 h2
    unfold ValidationAgent.processA2aMessage
    simp [h1, h2]

/-- C9 (witness): concrete misrouted envelopes at each agent, with a
non-empty ledger left intact. -/
theorem c9_reject_no_side_effects_witness :
    AuditAgent.processA2aMessage 0 [c9LedgerEntry] c9AuditMsg
      = ({ status := "rejected", reason := some "Message not for this agent",
           message_id := none, result := none }, [c9LedgerEntry])
    ∧ ValidationAgent.processA2aMessage 0 c9ValMsg none
      = ({ status := "rejected", reason := some "Message not for this agent",
           message_id := none, result := none }, []) :=
  ⟨c9_reject_no_side_effects.1 0 [c9LedgerEntry] c9AuditMsg rfl (by decide),
   c9_reject_no_side_effects.2 0 c9ValMsg none rfl (by decide)⟩

/-- One append to the ledger yields length `min (old + 1) 100`. -/
theorem processAuditLog_length (now : ℚ) (logs : List AuditAgent.AuditEntry)
    (d : AuditAgent.AuditData) :
    (AuditAgent.processAuditLog now logs d).length
      = if 100 < logs.length + 1 then 100 else logs.length + 1 := by
  unfold AuditAgent.processAuditLog
  dsimp only
  simp only [List.length_append, List.length_singleton]
  split_ifs with h
  · rw [List.length_drop]
    simp only [List.length_append, List.length_singleton]
    omega
  · simp

/-- Starting within the cap, any run of appends stays within the cap. -/
theorem foldlAudit_length_le (now : ℚ) :
    ∀ (es : List AuditAgent.AuditData) (logs : List AuditAgent.AuditEntry),
      logs.length ≤ 100 →
      (es.foldl (AuditAgent.processAuditLog now) logs).length ≤ 100 := by
  intro es
  induction es with
  | nil => intro logs h; simpa using h
  | cons d rest ih =>
    intro logs h
    rw [List.foldl_cons]
    apply ih
    rw [processAuditLog_length]
    split_ifs <;> omega

/-- While the cap is not reached, appends are plain appends. -/
theorem foldlAudit_no_trunc (now : ℚ) :
    ∀ (es : List AuditAgent.AuditData) (logs : List AuditAgent.AuditEntry),
      logs.length + es.length ≤ 100 →
      es.foldl (AuditAgent.processAuditLog now) logs
        = logs ++ es.map (AuditAgent.mkAuditEntry now) := by
  intro es
  induction es with
  | nil => intro logs _; simp
  | cons d rest ih =>
    intro logs h
    simp only [List.length_cons] at h
    have hstep : AuditAgent.processAuditLog now logs d
        = logs ++ [AuditAgent.mkAuditEntry now d] := by
      unfold AuditAgent.processAuditLog
      dsimp only
      rw [if_neg]
      simp only [List.length_append, List.length_singleton]
      omega
    rw [List.foldl_cons, hstep, ih (logs ++ [AuditAgent.mkAuditEntry now d]) (by simp; omega)]
    simp

/-- C4: after any sequence of appends from an empty ledger the audit ledger
holds at most 100 entries, and appending the 101st entry evicts exactly the
oldest one — the resulting ledger is precisely the entries built from
payloads 2 through 101 in their original relative order, most recent
last. -/
theorem c4_retention_cap (now : ℚ) :
    (∀ es : List AuditAgent.AuditData,
       (es.foldl (AuditAgent.processAuditLog now) []).length ≤ 100)
    ∧ (∀ es : List AuditAgent.AuditData, es.length = 101 →
       es.foldl (AuditAgent.processAuditLog now) []
         = (es.drop 1).map (AuditAgent.mkAuditEntry now)) := by
  constructor
  · intro es
    exact foldlAudit_length_le now es [] (by simp)
  · intro es h
    obtain ⟨d, hd⟩ : ∃ d, es.drop 100 = [d] := by
      apply List.length_eq_one.mp
      rw [List.length_drop, h]
    have htake : (es.take 100).length = 100 := by
      rw [List.length_take, h]
      omega
    have hsplit : es = es.take 100 ++ [d] := by
      conv_lhs => rw [← List.take_append_drop 100 es]
      rw [hd]
    rw [hsplit, List.foldl_append,
      foldlAudit_no_trunc now (es.take 100) [] (by simp [htake]),
      List.nil_append, List.foldl_cons, List.foldl_nil]
    have hlen : ((es.take 100).map (AuditAgent.mkAuditEntry now)).length = 100 := by
      rw [List.length_map, htake]
    unfold AuditAgent.processAuditLog
    dsimp only
    have hc : 100 < ((es.take 100).map (AuditAgent.mkAuditEntry now)
        ++ [AuditAgent.mkAuditEntry now d]).length := by
      rw [List.length_append, hlen, List.length_singleton]
      omega
    rw [if_pos hc]
    have e1 : ((es.take 100).map (AuditAgent.mkAuditEntry now)
        ++ [AuditAgent.mkAuditEntry now d]).length - 100 = 1 := by
      rw [List.length_append, hlen, List.length_singleton]
    have e2 : ((es.take 100).map (AuditAgent.mkAuditEntry now)
          ++ [AuditAgent.mkAuditEntry now d]).drop 1
        = ((es.take 100).map (AuditAgent.mkAuditEntry now)).drop 1
          ++ [AuditAgent.mkAuditEntry now d] :=
      List.drop_append_of_le_length (by omega)
    have e3 : (es.take 100 ++ [d]).drop 1 = (es.take 100).drop 1 ++ [d] :=
      List.drop_append_of_le_length (by omega)
    rw [e1, e2, e3, List.map_append]
    simp [List.map_drop]

/-- C4 (witness): a concrete batch of 101 payloads has length 101 and folds
to exactly the entries of payloads 2-101. -/
theorem c4_retention_cap_witness :
    c4Batch.length = 101
    ∧ c4Batch.foldl (AuditAgent.processAuditLog 0) []
        = (c4Batch.drop 1).map (AuditAgent.mkAuditEntry 0) :=
  ⟨by unfold c4Batch; rw [List.length_map, List.length_range],
   (c4_retention_cap 0).2 c4Batch
     (by unfold c4Batch; rw [List.length_map, List.length_range])⟩

/-- `abs` is idempotent. -/
theorem pyAbs_idem (a : ℚ) : pyAbs (pyAbs a) = pyAbs a := by
  unfold pyAbs
  split_ifs <;> linarith

/-- `abs` is non-negative. -/
theorem pyAbs_nonneg (a : ℚ) : 0 ≤ pyAbs a := by
  unfold pyAbs
  split_ifs <;> linarith

/-- C7 (counterexample): a record whose amount `-6000` is below both
thresholds as claim C7 states them, with no routing numbers, nevertheless
makes the detector emit a `high_value_transaction` trigger (the code
compares `abs(amount)`). -/
theorem c7_counterexample :
    c7NegRecord.amount = some (.num (-6000))
    ∧ ¬((5000 : ℚ) < -6000) ∧ ¬((1000 : ℚ) < -6000)
    ∧ c7NegRecord.from_routing_num = none ∧ c7NegRecord.to_routing_num = none
    ∧ MonitoringAgent.analyzeTransaction 0 c7NegRecord
        = some (.perRecord "high_value_transaction" "tx1" 6000 "1234567890" 100) := by
  refine ⟨rfl, by norm_num, by norm_num, rfl, rfl, ?_⟩
  with_unfolding_all rfl

/-- C7 (amended): for every record, the type of the emitted trigger (if any)
follows the first-match-wins policy of claim C7 with the thresholds applied
to the absolute value of the parsed amount; a missing amount acts as `0`
(amount rules fail, the routing rule may still fire) and a non-numeric or
null amount yields no trigger and no error. -/
theorem c7_amended_policy (now : ℚ) (tx : MonitoringAgent.TxRecord) :
    (MonitoringAgent.analyzeTransaction now tx).map MonitoringAgent.mTriggerType
      = c7AmendedPolicy tx := by
  unfold MonitoringAgent.analyzeTransaction c7AmendedPolicy
  cases hp : MonitoringAgent.amountOfRecord tx.amount with
  | none => rfl
  | some a =>
    dsimp only
    split_ifs <;> rfl

/-- C10: whenever the amount parses, the detector behaves exactly as it
would on the record carrying the absolute value of that amount, and any
emitted per-record trigger stores that absolute value, which is
non-negative. -/
theorem c10_absolute_amount (now : ℚ) (tx : MonitoringAgent.TxRecord) (a : ℚ)
    (h : MonitoringAgent.amountOfRecord tx.amount = some a) :
    MonitoringAgent.analyzeTransaction now { tx with amount := some (.num (pyAbs a)) }
      = MonitoringAgent.analyzeTransaction now tx
    ∧ (∀ ty tid amt uid ts,
       MonitoringAgent.analyzeTransaction now tx = some (.perRecord ty tid amt uid ts) →
       amt = pyAbs a ∧ 0 ≤ amt) := by
  constructor
  · unfold MonitoringAgent.analyzeTransaction
    rw [h]
    have habs : MonitoringAgent.amountOfRecord
        ({ tx with amount := some (.num (pyAbs a)) } : MonitoringAgent.TxRecord).amount
        = some (pyAbs a) := rfl
    rw [habs]
    dsimp only
    rw [pyAbs_idem]
  · intro ty tid amt uid ts heq
    unfold MonitoringAgent.analyzeTransaction at heq
    rw [h] at heq
    dsimp only at heq
    split_ifs at heq <;>
      simp only [Option.some.injEq, MonitoringAgent.MTrigger.perRecord.injEq] at heq
    · exact ⟨heq.2.2.1.symm, heq.2.2.1 ▸ pyAbs_nonneg a⟩
    · exact ⟨heq.2.2.1.symm, heq.2.2.1 ▸ pyAbs_nonneg a⟩
    · exact ⟨heq.2.2.1.symm, heq.2.2.1 ▸ pyAbs_nonneg a⟩

/-- C10 (witness): the record with amount `-6000` parses to `-6000`, and the
detector treats it exactly like the same record with amount `6000`. -/
theorem c10_absolute_amount_witness :
    MonitoringAgent.amountOfRecord c10NegRecord.amount = some (-6000)
    ∧ MonitoringAgent.analyzeTransaction 0
        { c10NegRecord with amount := some (.num (pyAbs (-6000))) }
      = MonitoringAgent.analyzeTransaction 0 c10NegRecord :=
  ⟨rfl, (c10_absolute_amount 0 c10NegRecord (-6000) rfl).1⟩


/-- Updating the activity dict with one record appends it to its account's
list, leaving every other account's list unchanged. -/
theorem stepGrp_lookup (tx : MonitoringAgent.TxRecord) :
    ∀ (g : List (String × List MonitoringAgent.TxRecord)) (b : String),
      MonitoringAgent.lookupGrp (MonitoringAgent.stepGrp g tx) b
        = MonitoringAgent.lookupGrp g b
          ++ (if MonitoringAgent.acctOf tx = b then [tx] else []) := by
  intro g
  induction g with
  | nil =>
    intro b
    unfold MonitoringAgent.stepGrp
    by_cases hb : MonitoringAgent.acctOf tx = b <;>
      simp [hb, MonitoringAgent.lookupGrp]
  | cons p rest ih =>
    intro b
    unfold MonitoringAgent.stepGrp
    by_cases hpa : p.1 = MonitoringAgent.acctOf tx
    · rw [if_pos hpa]
      unfold MonitoringAgent.lookupGrp
      by_cases hpb : p.1 = b
      · rw [if_pos hpb, if_pos hpb, if_pos (hpa.symm.trans hpb)]
      · rw [if_neg hpb, if_neg hpb,
          if_neg (fun hc : MonitoringAgent.acctOf tx = b => hpb (hpa.trans hc)),
          List.append_nil]
    · rw [if_neg hpa]
      unfold MonitoringAgent.lookupGrp
      by_cases hpb : p.1 = b
      · rw [if_pos hpb, if_pos hpb,
          if_neg (fun hc : MonitoringAgent.acctOf tx = b => hpa (hpb.trans hc.symm)),
          List.append_nil]
      · rw [if_neg hpb, if_neg hpb, ih b]

/-- Updating the activity dict adds the record's account key at the end
exactly when it is new. -/
theorem stepGrp_keys (tx : MonitoringAgent.TxRecord) :
    ∀ g : List (String × List MonitoringAgent.TxRecord),
      (MonitoringAgent.stepGrp g tx).map Prod.fst
        = if MonitoringAgent.acctOf tx ∈ g.map Prod.fst then g.map Prod.fst
          else g.map Prod.fst ++ [MonitoringAgent.acctOf tx] := by
  intro g
  induction g with
  | nil => simp [MonitoringAgent.stepGrp]
  | cons p rest ih =>
    unfold MonitoringAgent.stepGrp
    by_cases hpa : p.1 = MonitoringAgent.acctOf tx
    · rw [if_pos hpa, if_pos (by simp [← hpa])]
      simp
    · rw [if_neg hpa]
      simp only [List.map_cons]
      rw [ih]
      by_cases hmem : MonitoringAgent.acctOf tx ∈ rest.map Prod.fst
      · rw [if_pos hmem, if_pos (by simp [hmem])]
      · rw [if_neg hmem, if_neg (by
          simp only [List.mem_cons]
          push_neg
          exact ⟨fun hc => hpa hc.symm, hmem⟩)]
        simp

/-- Updating the activity dict preserves distinctness of its keys. -/
theorem stepGrp_nodup (tx : MonitoringAgent.TxRecord)
    (g : List (String × List MonitoringAgent.TxRecord))
    (h : (g.map Prod.fst).Nodup) :
    ((MonitoringAgent.stepGrp g tx).map Prod.fst).Nodup := by
  rw [stepGrp_keys]
  split_ifs with hmem
  · exact h
  · simp [List.nodup_append, h, hmem]

/-- Folding records into the activity dict: each account's list is exactly
the records of that account, in order. -/
theorem foldl_stepGrp_lookup :
    ∀ (txs : List MonitoringAgent.TxRecord)
      (g : List (String × List MonitoringAgent.TxRecord)) (b : String),
      MonitoringAgent.lookupGrp (txs.foldl MonitoringAgent.stepGrp g) b
        = MonitoringAgent.lookupGrp g b
          ++ txs.filter (fun tx => MonitoringAgent.acctOf tx == b) := by
  intro txs
  induction txs with
  | nil => intro g b; simp
  | cons tx rest ih =>
    intro g b
    rw [List.foldl_cons, ih, stepGrp_lookup, List.filter_cons]
    by_cases hb : MonitoringAgent.acctOf tx = b
    · simp [hb]
    · simp [hb]

/-- Folding records into the activity dict keeps the keys distinct. -/
theorem foldl_stepGrp_nodup :
    ∀ (txs : List MonitoringAgent.TxRecord)
      (g : List (String × List MonitoringAgent.TxRecord)),
      (g.map Prod.fst).Nodup →
      ((txs.foldl MonitoringAgent.stepGrp g).map Prod.fst).Nodup := by
  intro txs
  induction txs with
  | nil => intro g h; exact h
  | cons tx rest ih =>
    intro g h
    rw [List.foldl_cons]
    exact ih _ (stepGrp_nodup tx g h)

/-- A key that is absent from the dict looks up to the empty list. -/
theorem lookupGrp_not_mem :
    ∀ (g : List (String × List MonitoringAgent.TxRecord)) (a : String),
      a ∉ g.map Prod.fst → MonitoringAgent.lookupGrp g a = [] := by
  intro g
  induction g with
  | nil => intro a _; rfl
  | cons p rest ih =>
    intro a ha
    simp only [List.map_cons, List.mem_cons] at ha
    push_neg at ha
    unfold MonitoringAgent.lookupGrp
    rw [if_neg (fun hc => ha.1 hc.symm)]
    exact ih a ha.2

/-- A key absent from the dict produces no review trigger. -/
theorem mkReviews_filter_not_mem (now : ℚ) :
    ∀ (g : List (String × List MonitoringAgent.TxRecord)) (a : String),
      a ∉ g.map Prod.fst →
      (MonitoringAgent.mkReviews now g).filter (MonitoringAgent.isReviewFor a) = [] := by
  intro g
  induction g with
  | nil => intro a _; rfl
  | cons p rest ih =>
    intro a ha
    simp only [List.map_cons, List.mem_cons] at ha
    push_neg at ha
    unfold MonitoringAgent.mkReviews
    rw [List.filterMap_cons]
    by_cases hlen : 3 ≤ p.2.length
    · rw [if_pos hlen]
      dsimp only
      rw [List.filter_cons]
      have hfalse : MonitoringAgent.isReviewFor a
          (MonitoringAgent.MTrigger.accountReview p.1 p.2.length now) = false := by
        simp only [MonitoringAgent.isReviewFor, beq_eq_false_iff_ne, ne_eq]
        exact fun hc => ha.1 hc.symm
      rw [hfalse]
      simp only [Bool.false_eq_true, if_false]
      have hr := ih a ha.2
      unfold MonitoringAgent.mkReviews at hr
      exact hr
    · rw [if_neg hlen]
      dsimp only
      have hr := ih a ha.2
      unfold MonitoringAgent.mkReviews at hr
      exact hr

/-- With distinct keys, the review triggers contain exactly one review for
account `a` when its grouped list has three or more records, and none
otherwise. -/
theorem mkReviews_count (now : ℚ) :
    ∀ (g : List (String × List MonitoringAgent.TxRecord)) (a : String),
      (g.map Prod.fst).Nodup →
      ((MonitoringAgent.mkReviews now g).filter (MonitoringAgent.isReviewFor a)).length
        = if 3 ≤ (MonitoringAgent.lookupGrp g a).length then 1 else 0 := by
  intro g
  induction g with
  | nil =>
    intro a _
    simp [MonitoringAgent.mkReviews, MonitoringAgent.lookupGrp]
  | cons p rest ih =>
    intro a hnd
    simp only [List.map_cons, List.nodup_cons] at hnd
    unfold MonitoringAgent.mkReviews
    rw [List.filterMap_cons]
    by_cases hpa : p.1 = a
    · have hrest : (MonitoringAgent.mkReviews now rest).filter
          (MonitoringAgent.isReviewFor a) = [] :=
        mkReviews_filter_not_mem now rest a (hpa ▸ hnd.1)
      unfold MonitoringAgent.mkReviews at hrest
      have hlook : MonitoringAgent.lookupGrp (p :: rest) a = p.2 := by
        unfold MonitoringAgent.lookupGrp
        rw [if_pos hpa]
      rw [hlook]
      by_cases hlen : 3 ≤ p.2.length
      · rw [if_pos hlen, if_pos hlen]
        dsimp only
        rw [List.filter_cons]
        have htrue : MonitoringAgent.isReviewFor a
            (MonitoringAgent.MTrigger.accountReview p.1 p.2.length now) = true := by
          simp [MonitoringAgent.isReviewFor, hpa]
        rw [htrue]
        simp only [if_pos, List.length_cons, hrest, List.length_nil]
      · rw [if_neg hlen, if_neg hlen]
        dsimp only
        rw [hrest, List.length_nil]
    · have hlook : MonitoringAgent.lookupGrp (p :: rest) a
          = MonitoringAgent.lookupGrp rest a := by
        simp only [MonitoringAgent.lookupGrp]
        rw [if_neg hpa]
      rw [hlook]
      have hfalse : MonitoringAgent.isReviewFor a
          (MonitoringAgent.MTrigger.accountReview p.1 p.2.length now) = false := by
        simp only [MonitoringAgent.isReviewFor, beq_eq_false_iff_ne, ne_eq]
        exact hpa
      have hr := ih a hnd.2
      unfold MonitoringAgent.mkReviews at hr
      by_cases hlen : 3 ≤ p.2.length
      · rw [if_pos hlen]
        dsimp only
        rw [List.filter_cons, hfalse]
        simp only [Bool.false_eq_true, if_false]
        exact hr
      · rw [if_neg hlen]
        dsimp only
        exact hr

/-- C8 (counterexample): with one previously seen high-value record and
three new small records on account `1111111111`, no per-record trigger
arises from the new records and that account accumulated 3 new records,
yet the cycle emits no `account_activity_review` trigger for it — the
review branch is gated on the per-record pass over the whole batch, and the
old record produces a trigger there. -/
theorem c8_counterexample :
    (MonitoringAgent.newTransactions 1 c8CexBatch).filterMap
        (MonitoringAgent.analyzeTransaction 0) = []
    ∧ 3 ≤ ((MonitoringAgent.newTransactions 1 c8CexBatch).filter
        (fun tx => MonitoringAgent.acctOf tx == "1111111111")).length
    ∧ ((MonitoringAgent.detectConsentTriggers 0 1 c8CexBatch []).1.filter
        (MonitoringAgent.isReviewFor "1111111111")).length = 0 := by
  refine ⟨?_, ?_, ?_⟩
  · with_unfolding_all rfl
  · with_unfolding_all decide
  · with_unfolding_all rfl

/-- C8 (amended): in a cycle in which the per-record pass over the whole
batch (new and previously seen records alike) produces no trigger, the
detector emits exactly one `account_activity_review` trigger for every
account with three or more new records since the previous cycle, and none
for any other account. -/
theorem c8_amended_review_emission (now : ℚ) (lastCount : ℕ)
    (txs : List MonitoringAgent.TxRecord) (users : List JVal) (acct : String)
    (h : ∀ tx ∈ txs, MonitoringAgent.analyzeTransaction now tx = none) :
    (((MonitoringAgent.detectConsentTriggers now lastCount txs users).1).filter
        (MonitoringAgent.isReviewFor acct)).length
      = if 3 ≤ ((MonitoringAgent.newTransactions lastCount txs).filter
          (fun tx => MonitoringAgent.acctOf tx == acct)).length then 1 else 0 := by
  have hfm : txs.filterMap (MonitoringAgent.analyzeTransaction now) = [] :=
    List.filterMap_eq_nil_iff.mpr h
  unfold MonitoringAgent.detectConsentTriggers
  dsimp only
  by_cases hemp : txs.isEmpty
  · rw [if_pos hemp]
    have : txs = [] := List.isEmpty_eq_true.mp hemp
    subst this
    simp [MonitoringAgent.newTransactions]
  · rw [if_neg hemp]
    rw [hfm]
    by_cases hn : (MonitoringAgent.newTransactions lastCount txs).isEmpty
    · have hnil : MonitoringAgent.newTransactions lastCount txs = [] :=
        List.isEmpty_eq_true.mp hn
      rw [hnil]
      simp
    · have hne : (MonitoringAgent.newTransactions lastCount txs).isEmpty = false :=
        Bool.eq_false_iff.mpr hn
      rw [hne]
      simp only [List.isEmpty_nil, Bool.not_false, Bool.and_true, Bool.and_self, if_true,
        List.nil_append]
      rw [mkReviews_count now _ acct
        (foldl_stepGrp_nodup (MonitoringAgent.newTransactions lastCount txs) [] (by simp)),
        foldl_stepGrp_lookup]
      rfl

/-- C8 (witness for the amended statement): five previously seen records and
three new records on account `1111111111`, none of the eight producing a
per-record trigger — the trigger count for that account equals the
claimed count. -/
theorem c8_amended_review_emission_witness :
    (((MonitoringAgent.detectConsentTriggers 0 5 c8WitnessBatch []).1).filter
        (MonitoringAgent.isReviewFor "1111111111")).length
      = if 3 ≤ ((MonitoringAgent.newTransactions 5 c8WitnessBatch).filter
          (fun tx => MonitoringAgent.acctOf tx == "1111111111")).length then 1 else 0 :=
  c8_amended_review_emission 0 5 c8WitnessBatch [] "1111111111" (by with_unfolding_all decide)
